import Mathlib

/-!
Verification of the FFmpeg-UI core against its specification.

The definitions below are a shallow embedding of the Python sources:
`app/core/gpu_detector.py` (capability probe and encoder selection),
`app/core/conversion_engine.py` (transcode engine: progress, ETA,
two-pass chaining, pass-log cleanup), and `app/core/batch_processor.py`
(sequential batch queue).  Machine strings are Lean `String`s, process
exit codes are `Int`, wall-clock and media times are exact rationals.
-/

/-- Python's `str.lower` (character-wise; ASCII case mapping). -/
def str_lower (s : String) : String := ⟨s.data.map Char.toLower⟩

/-- Python's `str.upper` (character-wise; ASCII case mapping). -/
def str_upper (s : String) : String := ⟨s.data.map Char.toUpper⟩

/-- `sub` occurs as a contiguous prefix of some suffix of `hay`. -/
def listContainsSub (hay sub : List Char) : Bool :=
  match hay with
  | [] => sub.isEmpty
  | _ :: t => sub.isPrefixOf hay || listContainsSub t sub

/-- `sub` occurs as a contiguous substring of `hay`
(Python's `sub in hay`). -/
def strContainsSub (hay sub : String) : Bool :=
  listContainsSub hay.toList sub.toList

/-! ## gpu_detector.py -/

/-- One detected GPU (class `GPUInfo`): vendor tag, display name and the
set of codecs that passed a trial encode. -/
structure GPUInfo where
  vendor : String
  name : String
  supported_codecs : List String
deriving DecidableEq, Repr

/-- The relevant state of a `GPUDetector` instance after probing:
the parsed encoder list, the identified GPUs, and the host platform
(the AMD encoder map depends on it). -/
structure DetectorState where
  supported_encoders : List String
  detected_gpus : List GPUInfo
  isWindows : Bool
deriving DecidableEq, Repr

/-- `GPUDetector._parse_encoders`: keep the second whitespace-separated
field of every stripped line that starts with `V`. -/
def parse_encoders (output : String) : List String :=
  (output.splitOn "\n").foldr
    (fun line acc =>
      let line := line.trim
      if line != "" && line.startsWith "V" then
        let parts := (line.split (fun c => c.isWhitespace)).filter (fun p => p != "")
        match parts with
        | _ :: second :: _ => second :: acc
        | _ => acc
      else acc)
    []

/-- `GPUDetector._parse_decoders`: textually identical to the encoder
listing routine. -/
def parse_decoders (output : String) : List String :=
  (output.splitOn "\n").foldr
    (fun line acc =>
      let line := line.trim
      if line != "" && line.startsWith "V" then
        let parts := (line.split (fun c => c.isWhitespace)).filter (fun p => p != "")
        match parts with
        | _ :: second :: _ => second :: acc
        | _ => acc
      else acc)
    []

/-- The diagnostic substrings that `GPUDetector._test_encoder` treats as
proof that the encoder is unusable. -/
def error_keywords : List String :=
  ["Codec not supported",
   "No capable devices",
   "does not support",
   "not supported",
   "Provided device doesn\x27t support"]

/-- `GPUDetector._test_encoder`, abstracted over the trial encode's
outcome: `raised` is whether launching the trial raised an exception,
`returncode` its exit code and `stderrOut` its diagnostic text. -/
def test_encoder (raised : Bool) (returncode : Int) (stderrOut : String) : Bool :=
  if raised then false
  else
    let stderr_lower := str_lower stderrOut
    if error_keywords.any (fun kw => strContainsSub stderr_lower (str_lower kw)) then false
    else returncode == 0

/-- `GPUDetector.has_gpu_support`. -/
def has_gpu_support (s : DetectorState) : Bool :=
  match s.detected_gpus with
  | [] => false
  | g :: _ => g.vendor != "none"

/-- `GPUDetector.is_codec_supported_by_gpu`: the first GPU whose vendor
matches decides; no match means unsupported. -/
def is_codec_supported_by_gpu (s : DetectorState) (codec gpu_vendor : String) : Bool :=
  match s.detected_gpus.find? (fun g => g.vendor == gpu_vendor) with
  | some g => g.supported_codecs.contains (str_lower codec)
  | none => false

/-- `GPUDetector.is_codec_container_compatible`. -/
def is_codec_container_compatible (codec container : String) : Bool :=
  let codec := str_lower codec
  let container := str_lower container
  if ["webm"].contains container then
    ["vp8", "vp9", "av1"].any (fun c => strContainsSub codec c)
  else if ["mp4", "mov", "m4v"].contains container then
    !(["vp8", "vp9", "theora"].any (fun c => strContainsSub codec c))
  else true

/-- `GPUDetector._get_software_encoder`: the static CPU encoder table,
keyed on codec with a container-dependent branch for WebM. -/
def get_software_encoder (codec : String) (container : String) : String :=
  if ["webm"].contains (str_lower container) then
    if ["h264", "hevc", "h265"].contains codec then "libvpx-vp9"
    else
      (List.lookup codec
        [("vp8", "libvpx"), ("vp9", "libvpx-vp9"), ("av1", "libaom-av1")]).getD "libvpx-vp9"
  else
    (List.lookup codec
      [("h264", "libx264"), ("hevc", "libx265"), ("h265", "libx265"),
       ("vp8", "libvpx"), ("vp9", "libvpx-vp9"), ("av1", "libaom-av1")]).getD "libx264"

/-- `GPUDetector._get_gpu_name_by_vendor`. -/
def get_gpu_name_by_vendor (s : DetectorState) (vendor : String) : String :=
  match s.detected_gpus.find? (fun g => g.vendor == vendor) with
  | some g => str_upper g.vendor ++ ": " ++ g.name
  | none => str_upper vendor

/-- The NVIDIA codec-to-encoder map in `get_best_encoder`. -/
def nvidia_encoder_map : List (String × String) :=
  [("h264", "h264_nvenc"), ("hevc", "hevc_nvenc"), ("h265", "hevc_nvenc"),
   ("av1", "av1_nvenc")]

/-- The Intel QSV codec-to-encoder map in `get_best_encoder`. -/
def intel_encoder_map : List (String × String) :=
  [("h264", "h264_qsv"), ("hevc", "hevc_qsv"), ("h265", "hevc_qsv"),
   ("av1", "av1_qsv"), ("mpeg2", "mpeg2_qsv"), ("vp9", "vp9_qsv")]

/-- The AMD codec-to-encoder map in `get_best_encoder` (AMF on Windows,
VA-API elsewhere). -/
def amd_encoder_map (isWindows : Bool) : List (String × String) :=
  if isWindows then
    [("h264", "h264_amf"), ("hevc", "hevc_amf"), ("h265", "hevc_amf"),
     ("av1", "av1_amf")]
  else
    [("h264", "h264_vaapi"), ("hevc", "hevc_vaapi"), ("h265", "hevc_vaapi"),
     ("vp8", "vp8_vaapi"), ("vp9", "vp9_vaapi"), ("av1", "av1_vaapi")]

/-- One vendor block of `get_best_encoder`: look the codec up in the
vendor map; an encoder incompatible with the container forces the
software fallback with a warning; a listed encoder is returned as is;
otherwise control falls through (`none`). -/
def try_hw_block (s : DetectorState) (encoder_map : List (String × String))
    (label codec container : String) : Option (String × String) :=
  let encoder := (List.lookup codec encoder_map).getD ""
  if encoder != "" && !is_codec_container_compatible encoder container then
    let fallback := get_software_encoder codec container
    some (fallback, "⚠ " ++ label ++ " " ++ str_upper codec ++ " несовместим с "
      ++ str_upper container ++ ". Используется CPU: " ++ fallback)
  else if s.supported_encoders.contains encoder then
    some (encoder, "")
  else none

/-- The three sequential vendor blocks of `get_best_encoder`.  In the
source they are three separate `if` statements, but their conditions are
mutually exclusive (a single vendor string), so an `else if` chain is
the same control flow: the block of the preferred vendor either returns
a result or control falls through to the final CPU fallback. -/
def hw_vendor_result (s : DetectorState) (preferred codec container : String) :
    Option (String × String) :=
  if preferred == "nvidia" then
    try_hw_block s nvidia_encoder_map "NVENC" codec container
  else if preferred == "intel" then
    try_hw_block s intel_encoder_map "QSV" codec container
  else if preferred == "amd" then
    try_hw_block s (amd_encoder_map s.isWindows) "AMD" codec container
  else none

/-- The body of `get_best_encoder` once the vendor has been resolved
(lines 326–407 of the source): unverified codec falls back to software
with a warning, then the vendor block runs, then the final CPU
fallback. -/
def select_for_vendor (s : DetectorState) (preferred codec container : String) :
    String × String :=
  if !is_codec_supported_by_gpu s codec preferred then
    let fallback := get_software_encoder codec container
    (fallback, "⚠ " ++ get_gpu_name_by_vendor s preferred ++ " не поддерживает "
      ++ str_upper codec ++ " кодирование. Используется CPU: " ++ fallback)
  else
    match hw_vendor_result s preferred codec container with
    | some out => out
    | none =>
      let fallback := get_software_encoder codec container
      (fallback, "ℹ GPU энкодер недоступен. Используется CPU: " ++ fallback)

/-- `GPUDetector.get_best_encoder`: returns the chosen encoder name and
a warning message (empty when no fallback happened). -/
def get_best_encoder (s : DetectorState) (codec0 preferred0 container0 : String) :
    String × String :=
  let codec := str_lower codec0
  let container := str_lower container0
  if preferred0 == "none" || !has_gpu_support s then
    (get_software_encoder codec container, "")
  else
    let preferred :=
      if preferred0 == "auto" && !s.detected_gpus.isEmpty then
        (s.detected_gpus.headD ⟨"none", "", []⟩).vendor
      else preferred0
    select_for_vendor s preferred codec container

/-! ## conversion_engine.py -/

/-- A terminal outcome of one engine run: `conversion_finished` emitted,
`conversion_error` emitted, or stopped by the user. -/
inductive JobResult
  | completed
  | failed
  | cancelled
deriving DecidableEq, Repr

/-- How one invocation of `_monitor_progress` ends: the cooperative stop
flag was observed, the process exited with a code, or the monitor loop
itself (or the pass-2 launch) raised an exception. -/
inductive MonitorEvent
  | stopRequested
  | procExit (code : Int)
  | monitorRaised
deriving DecidableEq, Repr

/-- The observable outcome of a whole engine run. -/
structure EngineRun where
  result : JobResult
  pass2Started : Bool
  cleanupCalled : Bool
deriving DecidableEq, Repr

/-- Outcome of `_monitor_progress` during pass 2 (no further pass):
the pair is (terminal result, whether `_cleanup_passlogfiles` ran). -/
def monitorOutcome (ev : MonitorEvent) : JobResult × Bool :=
  match ev with
  | .stopRequested => (.cancelled, true)
  | .monitorRaised => (.failed, false)
  | .procExit c => if c = 0 then (.completed, true) else (.failed, true)

/-- A whole engine run (`start` then `_monitor_progress`, chaining into
`_start_pass2` exactly when pass 1 exits 0 and a pass-2 command exists).
`ev1` and `ev2` are how the monitor ends on each pass. -/
def runEngine (hasPass2 : Bool) (ev1 ev2 : MonitorEvent) : EngineRun :=
  match ev1 with
  | .stopRequested => { result := .cancelled, pass2Started := false, cleanupCalled := true }
  | .monitorRaised => { result := .failed, pass2Started := false, cleanupCalled := false }
  | .procExit c =>
    if c = 0 then
      if hasPass2 then
        let o := monitorOutcome ev2
        { result := o.1, pass2Started := true, cleanupCalled := o.2 }
      else { result := .completed, pass2Started := false, cleanupCalled := true }
    else { result := .failed, pass2Started := false, cleanupCalled := true }

/-- The artifact-name suffixes that `_cleanup_passlogfiles` deletes. -/
def passlog_suffixes : List String :=
  ["", "-0.log", "-0.log.mbtree", "-0.log.temp", ".log", ".log.mbtree", ".log.temp"]

/-- `ConversionEngine._cleanup_passlogfiles` on an idealised file system
(a list of file names): a missing pass-log path is a no-op; otherwise
every artifact name derived from it is removed. -/
def cleanup_passlogfiles (passlogfile : String) (files : List String) : List String :=
  if passlogfile = "" then files
  else files.filter
    (fun f => !(passlog_suffixes.map (fun suf => passlogfile ++ suf)).contains f)

/-- An engine run together with its effect on the file system: cleanup
runs exactly on the paths where the code calls `_cleanup_passlogfiles`. -/
def runEngineFiles (hasPass2 : Bool) (passlogfile : String) (files : List String)
    (ev1 ev2 : MonitorEvent) : EngineRun × List String :=
  let run := runEngine hasPass2 ev1 ev2
  (run, if run.cleanupCalled then cleanup_passlogfiles passlogfile files else files)

/-- The pass-log artifacts still present in `files`. -/
def passlog_artifacts (passlogfile : String) (files : List String) : List String :=
  files.filter
    (fun f => (passlog_suffixes.map (fun suf => passlogfile ++ suf)).contains f)

/-- `⌊log₂ n⌋` by fuelled structural recursion (0 for `n = 0`); exact
for every `n < 2^fuel`, and it is used with fuel 64, far above the
largest parsable timestamp `99:99:99 = 362439 s < 2^19`. -/
def log2fuel : ℕ → ℕ → ℕ
  | 0, _ => 0
  | fuel + 1, n => if n < 2 then 0 else log2fuel fuel (n / 2) + 1

/-- Round the exact quotient `n / d` (with `d ≠ 0`) to the nearest
integer, ties to even — the IEEE-754 default rounding. -/
def rndNat (n d : ℕ) : ℕ :=
  let q := n / d
  let r := n % d
  if 2 * r < d then q
  else if d < 2 * r then q + 1
  else if q % 2 = 0 then q else q + 1

/-- Whether `2^p ≤ c / T` (as exact rationals), for `c, T ≥ 1`. -/
def le_pow2 (p : ℤ) (c T : ℕ) : Bool :=
  if 0 ≤ p then T * 2 ^ p.toNat ≤ c else T ≤ c * 2 ^ (-p).toNat

/-- Correctly rounded binary64 quotient `c / T` for `c, T ≥ 1`, as an
unnormalised significand–exponent pair `(m, e)` with value `m·2^e`:
the binade `2^p ≤ c/T < 2^(p+1)` is located from the bit lengths of
`c` and `T`, then the 53-bit significand is rounded half-to-even. -/
def fl_div (c T : ℕ) : ℕ × ℤ :=
  let p0 : ℤ := (log2fuel 64 c : ℤ) - (log2fuel 64 T : ℤ)
  let p : ℤ := if le_pow2 p0 c T then p0 else p0 - 1
  let e : ℤ := p - 52
  let m : ℕ := if 0 ≤ e then rndNat c (T * 2 ^ e.toNat) else rndNat (c * 2 ^ (-e).toNat) T
  (m, e)

/-- Correctly rounded binary64 product of `m·2^e` with the exact
constant 100: the integer `100·m` is cut back to 53 bits with
half-to-even rounding. -/
def fl_mul100 (me : ℕ × ℤ) : ℕ × ℤ :=
  let M := me.1 * 100
  let s := log2fuel 64 M - 52
  (rndNat M (2 ^ s), me.2 + s)

/-- Per-pass progress (`pass_progress` in `_monitor_progress`, line
100–101): `int((current_seconds / total_seconds) * 100)` capped at 100,
with the division and the multiplication each rounded to binary64 as
CPython does, and `int` truncating (= flooring, the value is ≥ 0).  The
`total_seconds = 0` case is unreachable behind the code's
`if time_match and total_seconds:` guard. -/
def pass_progress_of (total_seconds current_seconds : ℕ) : ℕ :=
  if total_seconds = 0 then 0
  else if current_seconds = 0 then 0
  else
    let me := fl_mul100 (fl_div current_seconds total_seconds)
    let n := if 0 ≤ me.2 then me.1 * 2 ^ me.2.toNat else me.1 / 2 ^ (-me.2).toNat
    min n 100

/-- Overall progress (`overall_progress`, lines 103–111): for two-pass
jobs pass 1 is squeezed into 0–50 and pass 2 into 50–100, otherwise it
is the per-pass value.  Here the float arithmetic is exact: the clamped
`pass_progress ≤ 100` is an integer, so `pass_progress * 0.5` is an
exact multiple of 1/2 in binary64 and `int` truncates it to
`pass_progress / 2`; likewise `int(50 + pass_progress * 0.5)` is
exactly `50 + pass_progress / 2`. -/
def overall_progress_of (total_passes current_pass : ℕ)
    (total_seconds current_seconds : ℕ) : ℕ :=
  let pp := pass_progress_of total_seconds current_seconds
  if total_passes = 2 then
    if current_pass = 1 then pp / 2
    else 50 + pp / 2
  else pp

/-- The ETA computation of `_monitor_progress` (lines 113–127):
`none` models the "being computed" placeholder used when the current
media time is still 0. -/
def eta_of (total_passes current_pass : ℕ) (total_seconds current_seconds : ℕ)
    (elapsed : ℚ) : Option ℚ :=
  if 0 < current_seconds then
    let estimated_pass_time := (elapsed / (current_seconds : ℚ)) * (total_seconds : ℚ)
    let estimated_total_time :=
      if total_passes = 2 ∧ current_pass = 1 then estimated_pass_time * 2
      else estimated_pass_time
    some (max 0 (estimated_total_time - elapsed))
  else none

/-! ## batch_processor.py -/

/-- The status field of a `BatchJob`. -/
inductive JobStatus
  | pending
  | processing
  | completed
  | failed
deriving DecidableEq, Repr

/-- The loop of `BatchProcessor.process_all`, with each job's engine
outcome given by a `Bool` (`true` = the engine finished without error).
A raised stop flag breaks the loop, leaving the rest pending; a failed
job is recorded and the loop continues with the next job. -/
def process_jobs (should_stop : Bool) : List Bool → List JobStatus
  | [] => []
  | ok :: rest =>
    if should_stop then (ok :: rest).map (fun _ => JobStatus.pending)
    else if ok then JobStatus.completed :: process_jobs should_stop rest
    else JobStatus.failed :: process_jobs should_stop rest

/-- Count of jobs with a given terminal status (the `BatchSummary`). -/
def count_status (st : JobStatus) (l : List JobStatus) : ℕ :=
  (l.filter (fun x => x == st)).length

/-! ## Theorems -/

/-- A successful vendor block yields either a listed encoder or the
software fallback for the (lowered) codec and container. -/
theorem try_hw_block_sound (s : DetectorState) (m : List (String × String))
    (label codec container : String) (out : String × String)
    (h : try_hw_block s m label codec container = some out) :
    out.1 ∈ s.supported_encoders ∨ out.1 = get_software_encoder codec container := by
  simp only [try_hw_block] at h
  split_ifs at h with h1 h2
  · cases h
    exact Or.inr rfl
  · cases h
    exact Or.inl (List.mem_of_elem_eq_true h2)

/-- Any result produced by a vendor dispatch is a listed encoder or the
software fallback. -/
theorem hw_vendor_result_sound (s : DetectorState) (preferred codec container : String)
    (out : String × String)
    (h : hw_vendor_result s preferred codec container = some out) :
    out.1 ∈ s.supported_encoders ∨ out.1 = get_software_encoder codec container := by
  unfold hw_vendor_result at h
  split_ifs at h with h1 h2 h3
  · exact try_hw_block_sound s nvidia_encoder_map "NVENC" codec container out h
  · exact try_hw_block_sound s intel_encoder_map "QSV" codec container out h
  · exact try_hw_block_sound s (amd_encoder_map s.isWindows) "AMD" codec container out h

/-- C1: for every codec, container, preferred vendor and hardware
profile, `get_best_encoder` returns either a name listed in the
profile's `supported_encoders` or the entry of the static software
table for the (lowercased) codec and container — nothing else. -/
theorem resolve_returns_listed_or_software (s : DetectorState)
    (codec preferred container : String) :
    (get_best_encoder s codec preferred container).1 ∈ s.supported_encoders ∨
    (get_best_encoder s codec preferred container).1
      = get_software_encoder (str_lower codec) (str_lower container) := by
  have core : ∀ P : String,
      (select_for_vendor s P (str_lower codec) (str_lower container)).1 ∈ s.supported_encoders ∨
      (select_for_vendor s P (str_lower codec) (str_lower container)).1
        = get_software_encoder (str_lower codec) (str_lower container) := by
    intro P
    simp only [select_for_vendor]
    split
    · exact Or.inr rfl
    · split
      · next out heq => exact hw_vendor_result_sound s P _ _ out heq
      · exact Or.inr rfl
  simp only [get_best_encoder]
  split
  · exact Or.inr rfl
  · exact core _

/-- C5: a preferred vendor of `"none"` short-circuits to the software
table with an empty warning, whatever the detector state holds. -/
theorem none_vendor_is_software (s : DetectorState) (codec container : String) :
    get_best_encoder s codec "none" container
      = (get_software_encoder (str_lower codec) (str_lower container), "") := rfl

/-- C9: the encoder-listing parser and the decoder-listing parser are
the same function on every input string. -/
theorem parse_encoders_eq_parse_decoders (output : String) :
    parse_encoders output = parse_decoders output := rfl

/-- C10: under the `webm` container the software table abandons the
requested codec family: `h264`, `hevc` and `h265` — and in fact every
codec outside `{vp8, vp9, av1}` — map to `libvpx-vp9`. -/
theorem webm_software_fallback_is_vp9 :
    get_software_encoder "h264" "webm" = "libvpx-vp9" ∧
    get_software_encoder "hevc" "webm" = "libvpx-vp9" ∧
    get_software_encoder "h265" "webm" = "libvpx-vp9" ∧
    ∀ codec : String, codec ∉ (["vp8", "vp9", "av1"] : List String) →
      get_software_encoder codec "webm" = "libvpx-vp9" := by
  refine ⟨rfl, rfl, rfl, ?_⟩
  intro codec h
  have e1 : (codec == "vp8") = false := by
    simp only [beq_eq_false_iff_ne, ne_eq]
    exact fun e => h (by simp [e])
  have e2 : (codec == "vp9") = false := by
    simp only [beq_eq_false_iff_ne, ne_eq]
    exact fun e => h (by simp [e])
  have e3 : (codec == "av1") = false := by
    simp only [beq_eq_false_iff_ne, ne_eq]
    exact fun e => h (by simp [e])
  show (if (["h264", "hevc", "h265"] : List String).contains codec = true then "libvpx-vp9"
        else (List.lookup codec
          [("vp8", "libvpx"), ("vp9", "libvpx-vp9"), ("av1", "libaom-av1")]).getD "libvpx-vp9")
      = "libvpx-vp9"
  by_cases hm : (["h264", "hevc", "h265"] : List String).contains codec = true
  · rw [if_pos hm]
  · rw [if_neg hm]
    simp [List.lookup, e1, e2, e3]

/-- C10 witness: a concrete codec outside the VP8/VP9/AV1 family. -/
theorem webm_software_fallback_is_vp9_witness :
    get_software_encoder "mpeg2" "webm" = "libvpx-vp9" :=
  webm_software_fallback_is_vp9.2.2.2 "mpeg2" (by decide)

/-- C3: the trial-encode classifier marks the encoder unsupported when
any known failure phrase occurs in the (lowercased) diagnostics, when
the exit code is non-zero, or when the trial raised; a clean zero exit
is supported. -/
theorem trial_encode_classification (returncode : Int) (txt : String) :
    (error_keywords.any (fun kw => strContainsSub (str_lower txt) (str_lower kw)) = true →
      test_encoder false returncode txt = false) ∧
    (error_keywords.any (fun kw => strContainsSub (str_lower txt) (str_lower kw)) = false →
      returncode ≠ 0 → test_encoder false returncode txt = false) ∧
    (error_keywords.any (fun kw => strContainsSub (str_lower txt) (str_lower kw)) = false →
      test_encoder false 0 txt = true) ∧
    test_encoder true returncode txt = false := by
  refine ⟨?_, ?_, ?_, rfl⟩
  · intro h
    simp [test_encoder, h]
  · intro h hc
    simp [test_encoder, h, hc]
  · intro h
    simp [test_encoder, h]

/-- C3 witness: a device-rejection phrase and a clean run, classified at
concrete inputs. -/
theorem trial_encode_classification_witness :
    test_encoder false 1 "Driver does not support this device" = false ∧
    test_encoder false 0 "frame=1 fps=0 speed=10x" = true :=
  ⟨(trial_encode_classification 1 "Driver does not support this device").1 (by decide),
   (trial_encode_classification 0 "frame=1 fps=0 speed=10x").2.2.1 (by decide)⟩

/-- After a real cleanup no derived artifact survives. -/
theorem passlog_artifacts_after_cleanup (p : String) (files : List String)
    (hp : p ≠ "") :
    passlog_artifacts p (cleanup_passlogfiles p files) = [] := by
  unfold passlog_artifacts cleanup_passlogfiles
  rw [if_neg hp, List.filter_filter]
  apply List.filter_eq_nil_iff.mpr
  intro a _
  cases hmem : (passlog_suffixes.map (fun suf => p ++ suf)).contains a <;> simp [hmem]

/-- C2 (as stated) is false: a run in which the pass-2 monitor raises an
exception reaches the terminal outcome `failed` while the pass-log
artifact `"log-0.log"` still exists. -/
theorem passlog_cleanup_counterexample :
    ((runEngineFiles true "log" ["log-0.log"] (.procExit 0) .monitorRaised).1.result
        = JobResult.failed) ∧
    "log-0.log" ∈ (runEngineFiles true "log" ["log-0.log"] (.procExit 0) .monitorRaised).2 := by
  constructor
  · rfl
  · simp [runEngineFiles, runEngine, monitorOutcome]

/-- C2 amended: on every terminal path reached through normal control
flow — stop request, zero-exit completion, non-zero-exit failure, in
either pass — `_cleanup_passlogfiles` runs and no pass-log artifact
survives; only an exception raised inside the monitor (or while
launching pass 2) skips the cleanup. -/
theorem passlog_cleanup_on_normal_paths (hasPass2 : Bool) (passlogfile : String)
    (files : List String) (ev1 ev2 : MonitorEvent)
    (hlog : passlogfile ≠ "")
    (h1 : ev1 ≠ .monitorRaised) (h2 : ev2 ≠ .monitorRaised) :
    passlog_artifacts passlogfile (runEngineFiles hasPass2 passlogfile files ev1 ev2).2 = [] := by
  have hcl : (runEngine hasPass2 ev1 ev2).cleanupCalled = true := by
    cases ev1 with
    | stopRequested => rfl
    | monitorRaised => exact absurd rfl h1
    | procExit c =>
      by_cases hc : c = 0
      · subst hc
        cases hasPass2 with
        | false => rfl
        | true =>
          cases ev2 with
          | stopRequested => rfl
          | monitorRaised => exact absurd rfl h2
          | procExit d =>
            by_cases hd : d = 0 <;> simp [runEngine, monitorOutcome, hd]
      · simp [runEngine, hc]
  show passlog_artifacts passlogfile
      (if (runEngine hasPass2 ev1 ev2).cleanupCalled then
        cleanup_passlogfiles passlogfile files else files) = []
  rw [hcl, if_pos rfl]
  exact passlog_artifacts_after_cleanup passlogfile files hlog

/-- C2 amended witness: a completed two-pass run leaves no artifact. -/
theorem passlog_cleanup_on_normal_paths_witness :
    passlog_artifacts "log"
      (runEngineFiles true "log" ["log-0.log", "video.mp4"]
        (.procExit 0) (.procExit 0)).2 = [] :=
  passlog_cleanup_on_normal_paths true "log" ["log-0.log", "video.mp4"]
    (.procExit 0) (.procExit 0) (by decide) (by decide) (by decide)

/-- C4: a non-zero pass-1 exit code means pass 2 is never started and
the terminal result is `failed`; pass 2 starts exactly when pass 1
exits 0 and a pass-2 command is present. -/
theorem pass1_nonzero_skips_pass2 (hasPass2 : Bool) (ev1 ev2 : MonitorEvent) (c : Int) :
    (ev1 = .procExit c → c ≠ 0 →
      (runEngine hasPass2 ev1 ev2).pass2Started = false ∧
      (runEngine hasPass2 ev1 ev2).result = JobResult.failed) ∧
    ((runEngine hasPass2 ev1 ev2).pass2Started = true ↔
      (ev1 = .procExit 0 ∧ hasPass2 = true)) := by
  constructor
  · rintro rfl hc
    simp [runEngine, hc]
  · cases ev1 with
    | stopRequested => simp [runEngine]
    | monitorRaised => simp [runEngine]
    | procExit c =>
      by_cases hc : c = 0
      · subst hc
        cases hasPass2 <;> simp [runEngine]
      · simp [runEngine, hc]

/-- C4 witness: pass 1 exiting 1 fails without starting pass 2. -/
theorem pass1_nonzero_skips_pass2_witness :
    (runEngine true (.procExit 1) (.procExit 0)).pass2Started = false ∧
    (runEngine true (.procExit 1) (.procExit 0)).result = JobResult.failed :=
  (pass1_nonzero_skips_pass2 true (.procExit 1) (.procExit 0) 1).1 rfl (by decide)

/-- C6 (as stated) is false: at total duration 100 s and current time
29 s the program computes `int((29/100)*100)` in binary64, where
`29/100` rounds down to `0.2899…98` and the product to `28.99…`, so it
emits 28 while `⌊100·29/100⌋` clamped is 29. -/
theorem progress_floor_counterexample :
    pass_progress_of 100 29 = 28 ∧ min ((100 * 29) / 100) 100 = 29 := by
  constructor
  · decide
  · decide

/-- C6 amended: per-pass progress is `int((c/T)·100)` computed in
binary64 and capped at 100 — which can fall next to, but not always on,
`⌊100·c/T⌋` (28 instead of 29 at `T = 100`, `c = 29`); a single-pass
job reports exactly the per-pass value; in a two-pass job pass 1 maps
into `[0, 50]` and pass 2 into `[50, 100]`; `Duration: 00:02:00` with
`time=00:01:00` still gives exactly 50. -/
theorem progress_formula (T c : ℕ) (hT : T ≠ 0) :
    overall_progress_of 1 1 T c = pass_progress_of T c ∧
    pass_progress_of T c ≤ 100 ∧
    overall_progress_of 2 1 T c ≤ 50 ∧
    (50 ≤ overall_progress_of 2 2 T c ∧ overall_progress_of 2 2 T c ≤ 100) ∧
    overall_progress_of 1 1 120 60 = 50 := by
  have hpp : pass_progress_of T c ≤ 100 := by
    unfold pass_progress_of
    split_ifs
    · exact Nat.zero_le 100
    · exact Nat.zero_le 100
    · exact min_le_right _ _
  refine ⟨by simp [overall_progress_of], hpp, ?_, ⟨?_, ?_⟩, by decide⟩
  · simp only [overall_progress_of]
    norm_num
    omega
  · simp only [overall_progress_of]
    norm_num
  · simp only [overall_progress_of]
    norm_num
    omega

/-- C6 amended witness: the documented scenario, total 120 s and
current 60 s. -/
theorem progress_formula_witness :
    overall_progress_of 1 1 120 60 = 50 :=
  (progress_formula 120 60 (by norm_num)).2.2.2.2

/-- C7 (as stated) is false: with elapsed 10 s, current media time 10 s
and total duration 20 s, pass 1 of a two-pass job reports an ETA of
30 s, not the 20 s that doubling the projected *remaining* time
(`max(0, 2·((e/c)·T − e))`) would give. -/
theorem eta_doubling_counterexample :
    eta_of 2 1 20 10 10 ≠ some (max 0 (2 * (((10 : ℚ) / 10) * 20 - 10))) := by
  have h1 : eta_of 2 1 20 10 10 = some 30 := by
    unfold eta_of
    norm_num
  have h2 : max (0 : ℚ) (2 * (((10 : ℚ) / 10) * 20 - 10)) = 20 := by norm_num
  rw [h1, h2]
  intro h
  exact absurd (Option.some.inj h) (by norm_num)

/-- C7 amended: the ETA is `max(0, (e/c)·T − e)` for a single-pass job
or during pass 2, and during pass 1 of a two-pass job the *projected
total* is doubled while elapsed time is subtracted once:
`max(0, 2·(e/c)·T − e)`. -/
theorem eta_formula (total_passes current_pass T c : ℕ) (e : ℚ) (hc : 0 < c) :
    (¬(total_passes = 2 ∧ current_pass = 1) →
      eta_of total_passes current_pass T c e
        = some (max 0 ((e / (c : ℚ)) * (T : ℚ) - e))) ∧
    ((total_passes = 2 ∧ current_pass = 1) →
      eta_of total_passes current_pass T c e
        = some (max 0 (2 * ((e / (c : ℚ)) * (T : ℚ)) - e))) := by
  constructor
  · intro h
    simp only [eta_of, if_pos hc, if_neg h]
  · intro h
    simp only [eta_of, if_pos hc, if_pos h]
    rw [mul_comm]

/-- C7 amended witness: a single-pass job, elapsed 10 s, current 10 s,
total 20 s. -/
theorem eta_formula_witness :
    eta_of 1 1 20 10 10 = some (max 0 (((10 : ℚ) / 10) * 20 - 10)) :=
  (eta_formula 1 1 20 10 10 (by norm_num)).1 (by norm_num)

/-- C8: without a stop request every job runs: each job's status records
its own outcome, a failure never leaves a later job pending, and the
documented 5-job scenario (job 3 fails) ends with 4 completed, 1 failed
and jobs 4–5 executed. -/
theorem batch_failure_isolation :
    (∀ outcomes : List Bool,
      process_jobs false outcomes
        = outcomes.map (fun ok => if ok then JobStatus.completed else JobStatus.failed)) ∧
    JobStatus.pending ∉ process_jobs false [true, true, false, true, true] ∧
    process_jobs false [true, true, false, true, true]
      = [.completed, .completed, .failed, .completed, .completed] ∧
    count_status .completed (process_jobs false [true, true, false, true, true]) = 4 ∧
    count_status .failed (process_jobs false [true, true, false, true, true]) = 1 := by
  refine ⟨?_, by decide, by decide, by decide, by decide⟩
  intro outcomes
  induction outcomes with
  | nil => rfl
  | cons a t ih => cases a <;> simp [process_jobs, ih]
